import Mathlib

deriving instance DecidableEq for Except

/-!
Shallow embedding of the ztnet authentication router (`authRouter` in the
tRPC auth module) and of the HTTP user-creation handler
(`src/pages/api/v1/users/index.ts`), together with proofs about the claims
of the specification.

Modelling conventions:
* The Prisma user store is a `List User`; `findFirst` on an equality
  condition is `List.find?` with the corresponding boolean predicate
  (Prisma string equality is exact, as in the source's `where` clauses).
* `bcrypt.hashSync` is modelled as a deterministic injective tagging of the
  plain password (salting is abstracted away); `bcrypt.compareSync` re-hashes
  and compares, which matches bcrypt's contract for the deterministic model.
* JSON web tokens are modelled as a transparent envelope `JwtToken` of a
  payload plus the signing secret; `jwt.decode` reads the payload without
  authentication and `jwt.verify` succeeds exactly on the signing secret
  (the perfect-MAC abstraction).  Expiry is not needed by any claim.
* JavaScript string truthiness (`""` is falsy) is modelled by `truthyStr`
  and `jsOr`; `String.prototype.trim` and `toLowerCase` are modelled over
  the character list (ASCII case folding).
* Mail dispatch (`createTransporter` / `sendEmail`) is modelled as an
  append to an `outbox` held in the server state; delivery always succeeds.
  Template rendering is data-only and its interpolation is abstracted.
-/

namespace Ztnet

/-! ## Data model -/

inductive Role where
  | ADMIN
  | USER
deriving DecidableEq

structure User where
  id : Nat
  name : String
  email : String
  hash : String
  role : Role
  lastLogin : Nat
deriving DecidableEq

structure Template where
  subject : String
  body : String
deriving DecidableEq

structure GlobalOptions where
  enableRegistration : Bool
  userRegistrationNotification : Bool
  smtpEmail : String
  notificationTemplate : Option Template
  forgotPasswordTemplate : Option Template
deriving DecidableEq

structure Mail where
  fromAddr : String
  toAddr : String
  subject : String
  html : String
deriving DecidableEq

structure ServerState where
  users : List User
  options : GlobalOptions
  nextId : Nat
  now : Nat
  outbox : List Mail
deriving DecidableEq

inductive ErrCode where
  | BAD_REQUEST
  | NOT_FOUND
deriving DecidableEq

/-- A failure escaping an operation: either a `TRPCError` built inline in the
router (`.trpc code message`) or an error raised through the shared
`throwError` helper or a library exception (`.thrown message`). -/
inductive AppError where
  | trpc (code : ErrCode) (message : String)
  | thrown (message : String)
deriving DecidableEq

/-- Modelled from the spec: the shared `throwError` helper from
`~/server/helpers/errorHandler` (not part of the given sources) raises a
failure carrying the given message. -/
def throwErr (message : String) : AppError := AppError.thrown message

/-! ## JavaScript string helpers -/

def jsWhitespaceCh (c : Char) : Bool :=
  decide (c = ' ' ∨ c = '\t' ∨ c = '\n' ∨ c = '\r')

/-- Model of `String.prototype.trim` (whitespace restricted to the common
ASCII whitespace characters). -/
def jsTrim (s : String) : String :=
  String.mk (((s.toList.dropWhile jsWhitespaceCh).reverse.dropWhile jsWhitespaceCh).reverse)

def jsToLowerCh (c : Char) : Char :=
  if decide ('A' ≤ c ∧ c ≤ 'Z') then Char.ofNat (c.toNat + 32) else c

/-- Model of `String.prototype.toLowerCase` (ASCII case folding). -/
def jsToLowerCase (s : String) : String :=
  String.mk (s.toList.map jsToLowerCh)

/-- JavaScript truthiness of an optional string field: absent and `""` are
falsy. -/
def truthyStr (o : Option String) : Bool :=
  match o with
  | none => false
  | some s => s != ""

/-- Model of `a || b` on an optional string `a` and a string default `b`. -/
def jsOr (o : Option String) (d : String) : String :=
  match o with
  | none => d
  | some s => if s == "" then d else s

/-! ## The password policy (`mediumPassword` regex and `passwordSchema`)

The source regex is
`^(((?=.*[a-z])(?=.*[A-Z]))|((?=.*[a-z])(?=.*[0-9]))|((?=.*[A-Z])(?=.*[0-9])))(?=.{6,})`
with no flags.  `^` anchors the match at index 0 and every lookahead is
evaluated there.  In a JavaScript regex without the `s` flag, `.` matches
any character except the four line terminators `\n`, `\r`, U+2028 and
U+2029, so `(?=.*[a-z])` holds iff a lowercase letter occurs before the
first line terminator, and `(?=.{6,})` holds iff at least six characters
precede the first line terminator.  `dotSpan` is that initial
terminator-free span. -/

def isLowerCh (c : Char) : Bool := decide ('a' ≤ c ∧ c ≤ 'z')

def isUpperCh (c : Char) : Bool := decide ('A' ≤ c ∧ c ≤ 'Z')

def isDigitCh (c : Char) : Bool := decide ('0' ≤ c ∧ c ≤ '9')

def isLineTermCh (c : Char) : Bool :=
  decide (c = '\n' ∨ c = '\r' ∨ c = Char.ofNat 0x2028 ∨ c = Char.ofNat 0x2029)

def dotSpan (s : String) : List Char :=
  s.toList.takeWhile (fun c => !(isLineTermCh c))

/-- Two-of-three character classes, in the alternation order of the regex. -/
def hasTwoClasses (l : List Char) : Bool :=
  (l.any isLowerCh && l.any isUpperCh)
    || (l.any isLowerCh && l.any isDigitCh)
    || (l.any isUpperCh && l.any isDigitCh)

/-- Model of `mediumPassword.test`. -/
def mediumPasswordTest (s : String) : Bool :=
  hasTwoClasses (dotSpan s) && decide (6 ≤ (dotSpan s).length)

/-- Model of a successful parse by `passwordSchema`:
`z.string().nonempty().max(40)` refined by the `mediumPassword` test. -/
def passwordSchemaOk (s : String) : Bool :=
  decide (1 ≤ s.length) && decide (s.length ≤ 40) && mediumPasswordTest s

/-! ## bcrypt and jsonwebtoken models -/

def bcryptHashSync (password : String) (_rounds : Nat) : String :=
  "bcrypt10$" ++ password

def bcryptCompareSync (password : String) (hash : String) : Bool :=
  bcryptHashSync password 10 == hash

structure JwtPayload where
  id : Option Nat
  email : String
deriving DecidableEq

structure JwtToken where
  payload : JwtPayload
  secret : String
deriving DecidableEq

def jwtSign (p : JwtPayload) (secret : String) : JwtToken :=
  { payload := p, secret := secret }

def jwtDecode (t : JwtToken) : JwtPayload := t.payload

def jwtVerify (t : JwtToken) (secret : String) : Bool := t.secret == secret

/-! ## Store queries -/

def findUserById (st : ServerState) (uid : Nat) : Option User :=
  st.users.find? (fun u => u.id == uid)

/-- Modelled from the spec: the built-in default notification template from
the mail utility (`notificationTemplate()` in `~/utils/mail`, not among the
given sources); its concrete wording is irrelevant to every claim. -/
def defaultNotificationTemplate : Template :=
  { subject := "New user registered", body := "A new user has just registered!" }

/-- Modelled from the spec: the built-in default forgot-password template
from the mail utility (`forgotPasswordTemplate()` in `~/utils/mail`). -/
def defaultForgotPasswordTemplate : Template :=
  { subject := "Password reset", body := "Follow the reset link." }

/-! ## The `register` mutation -/

/-- The admin-notification fan-out at the end of `register`: when
`userRegistrationNotification` is enabled, one mail per `ADMIN` user is
rendered from the (custom or default) notification template and dispatched;
dispatch failures are swallowed, so in the model every mail simply reaches
the outbox.  The admins are queried after the new user was created. -/
def adminNotifications (st : ServerState) : ServerState :=
  if st.options.userRegistrationNotification then
    let template :=
      match st.options.notificationTemplate with
      | some t => t
      | none => defaultNotificationTemplate
    let admins := st.users.filter (fun u => decide (u.role = Role.ADMIN))
    { st with
      outbox := st.outbox ++ admins.map (fun a =>
        { fromAddr := st.options.smtpEmail, toAddr := a.email,
          subject := template.subject, html := template.body }) }
  else st

/-- The `register` mutation.  `email0` is the raw input email; the zod layer
trims it (`.transform((val) => val.trim())`).  Errors are thrown before the
`prisma.user.create` call, so an `Except.error` result pairs with the
unchanged state. -/
def register (st : ServerState) (email0 password name : String) :
    Except AppError User × ServerState :=
  let email := jsTrim email0
  if !st.options.enableRegistration then
    (Except.error (AppError.trpc ErrCode.BAD_REQUEST
      "Registration is disabled! Please contact the administrator."), st)
  else if email == "" then
    -- the source returns an `Error` value here and the following
    -- `z.string().nonempty().parse(email)` would throw; both are unreachable
    -- for an input that passed the zod `.email()` check
    (Except.error (throwErr "Email required!"), st)
  else
    match st.users.find? (fun u => u.email == email) with
    | some _ =>
      (Except.error (AppError.trpc ErrCode.NOT_FOUND
        ("email \"" ++ email ++ "\" already taken")), st)
    | none =>
      if password != "" && !mediumPasswordTest password then
        (Except.error (AppError.trpc ErrCode.BAD_REQUEST
          "Password does not meet the requirements!"), st)
      else
        let hash := bcryptHashSync password 10
        let userCount := st.users.length
        let newUser : User :=
          { id := st.nextId, name := name, email := email, hash := hash,
            role := if userCount == 0 then Role.ADMIN else Role.USER,
            lastLogin := st.now }
        let st1 : ServerState :=
          { st with users := st.users ++ [newUser], nextId := st.nextId + 1 }
        (Except.ok newUser, adminNotifications st1)

/-! ## The `me` query -/

/-- The `me` query: it awaits the user lookup but its body has no `return`
statement, so the resolver resolves to `undefined` (here: `none`). -/
def me (st : ServerState) (sessionUserId : Nat) : Option User :=
  let _user := findUserById st sessionUserId
  none

/-! ## The `update` mutation -/

structure UpdateInput where
  email : Option String
  password : Option String
  newPassword : Option String
  repeatNewPassword : Option String
  name : Option String
deriving DecidableEq

/-- The final `prisma.user.update` of the `update` mutation: the row with
the acting user's id receives the new field values, every value falling
back to the existing one via JavaScript `||`, and the hash is replaced only
when `input.newPassword` is truthy. -/
def applyProfileUpdate (st : ServerState) (user : User) (input : UpdateInput) :
    ServerState :=
  let newU : User :=
    { user with
      email := jsOr input.email user.email,
      name := jsOr input.name user.name,
      hash := if truthyStr input.newPassword then
          bcryptHashSync (input.newPassword.getD "") 10
        else user.hash }
  { st with users := st.users.map (fun v => if v.id == user.id then newU else v) }

/-- The `update` mutation of the authenticated user `uid`.  All optional
inputs already passed the zod layer (each password field through
`passwordSchema`, trimmed). -/
def update (st : ServerState) (uid : Nat) (input : UpdateInput) :
    Except AppError Unit × ServerState :=
  match findUserById st uid with
  | none => (Except.error (AppError.trpc ErrCode.NOT_FOUND "User not found!"), st)
  | some user =>
    if truthyStr input.newPassword || truthyStr input.repeatNewPassword
        || truthyStr input.password then
      if !truthyStr input.newPassword || !truthyStr input.repeatNewPassword
          || !truthyStr input.password then
        (Except.error (AppError.trpc ErrCode.BAD_REQUEST "Please fill all fields!"), st)
      else if !mediumPasswordTest (input.newPassword.getD "") then
        (Except.error (AppError.trpc ErrCode.BAD_REQUEST
          "Password does not meet the requirements!"), st)
      else if !bcryptCompareSync (input.password.getD "") user.hash then
        (Except.error (AppError.trpc ErrCode.BAD_REQUEST "Old password is incorrect!"), st)
      else if input.newPassword != input.repeatNewPassword then
        (Except.error (AppError.trpc ErrCode.BAD_REQUEST "Passwords do not match!"), st)
      else
        (Except.ok (), applyProfileUpdate st user input)
    else
      (Except.ok (), applyProfileUpdate st user input)

/-! ## The `passwordResetLink` mutation -/

/-- The reset token issued at lines 306-315 of the router: signed over
`{ id, email }` of the user, with the user's current credential hash as the
signing secret (expiry abstracted). -/
def issueResetToken (u : User) : JwtToken :=
  jwtSign { id := some u.id, email := u.email } u.hash

/-- The `passwordResetLink` mutation.  The user lookup lowercases the
trimmed input email; when no user matches, the string
`"Mail sent if email exist!"` is returned, and when a user matches, the
reset mail is dispatched and the resolver falls off the end of the function
body, resolving to `undefined` (here: `none`). -/
def passwordResetLink (st : ServerState) (email0 : String) :
    Except AppError (Option String) × ServerState :=
  let email := jsTrim email0
  if email == "" then (Except.error (throwErr "Email is required!"), st)
  else
    match st.users.find? (fun u => u.email == jsToLowerCase email) with
    | none => (Except.ok (some "Mail sent if email exist!"), st)
    | some user =>
      let _token := issueResetToken user
      let template :=
        match st.options.forgotPasswordTemplate with
        | some t => t
        | none => defaultForgotPasswordTemplate
      let mail : Mail :=
        { fromAddr := st.options.smtpEmail, toAddr := email,
          subject := template.subject, html := template.body }
      (Except.ok none, { st with outbox := st.outbox ++ [mail] })

/-! ## The `changePasswordFromJwt` mutation -/

/-- The body of the `try` block of `changePasswordFromJwt`: decode the
token without authentication, reject a falsy id, load the user, reject a
missing or hash-less user, verify the token against the user's current hash
(`jwt.verify` throws on a wrong secret), then persist the bcrypt hash of the
submitted password.  Every `Except.error` produced here is an exception
inside the `try`. -/
def changePasswordInner (st : ServerState) (tok : JwtToken) (password : String) :
    Except AppError (User × ServerState) :=
  match (jwtDecode tok).id with
  | none => Except.error (throwErr "This link is not valid!")
  | some id =>
    if id == 0 then Except.error (throwErr "This link is not valid!")
    else
      match findUserById st id with
      | none => Except.error (throwErr "Something went wrong!")
      | some user =>
        if user.hash == "" then Except.error (throwErr "Something went wrong!")
        else if !jwtVerify tok user.hash then
          Except.error (AppError.thrown "invalid signature")
        else
          let newHash := bcryptHashSync password 10
          Except.ok ({ user with hash := newHash },
            { st with users := st.users.map (fun v =>
                if v.id == id then { v with hash := newHash } else v) })

/-- The `changePasswordFromJwt` mutation.  The two guards before the `try`
block surface their own messages; any exception inside the `try` block is
caught, logged and replaced by the generic failure.  (The source also
rejects an empty token string first; a structured `JwtToken` models a
decodable, hence non-empty, serialized token, so that guard cannot fire.) -/
def changePasswordFromJwt (st : ServerState) (tok : JwtToken)
    (password newPassword : String) : Except AppError User × ServerState :=
  if password != newPassword then
    (Except.error (throwErr "Passwords does not match!"), st)
  else
    match changePasswordInner st tok password with
    | Except.error _ =>
      (Except.error (throwErr "token is not valid, please try again!"), st)
    | Except.ok (u, st1) => (Except.ok u, st1)

/-! ## The HTTP user-creation handler (`src/pages/api/v1/users/index.ts`) -/

def verifyApiKey (key : String) : Bool := key == "secret"

structure ApiRequest where
  method : String
  authHeader : Option String
  email : String
  password : String
  name : String
deriving DecidableEq

inductive ApiResponse where
  | status (code : Nat)
  | fromRegister (r : Except AppError User)

/-- `createUserHandler`: non-POST methods get a bare 405, a missing or
falsy or non-matching `x-zt1-auth` header gets a 401, and only then is the
tRPC `register` mutation invoked with the request body. -/
def createUserHandler (st : ServerState) (req : ApiRequest) :
    ApiResponse × ServerState :=
  if req.method != "POST" then (ApiResponse.status 405, st)
  else
    match req.authHeader with
    | none => (ApiResponse.status 401, st)
    | some apiKey =>
      if apiKey == "" then (ApiResponse.status 401, st)
      else if !verifyApiKey apiKey then (ApiResponse.status 401, st)
      else
        let res := register st req.email req.password req.name
        (ApiResponse.fromRegister res.1, res.2)

/-! ## Concrete fixtures used by witnesses and counterexamples -/

def baseOptions : GlobalOptions :=
  { enableRegistration := true, userRegistrationNotification := false,
    smtpEmail := "admin@ztnet.network", notificationTemplate := none,
    forgotPasswordTemplate := none }

def stEmpty : ServerState :=
  { users := [], options := baseOptions, nextId := 1, now := 0, outbox := [] }

/-- The record created by registering Ann into the empty store. -/
def annUser : User :=
  { id := 1, name := "Ann", email := "a@x.com",
    hash := bcryptHashSync "Abc123" 10, role := Role.ADMIN, lastLogin := 0 }

/-- A one-user store: the state after Ann's registration. -/
def stOne : ServerState :=
  { users := [annUser], options := baseOptions, nextId := 2, now := 5, outbox := [] }

/-- The record created by registering Bob with a case-variant of Ann's email
into `stOne`. -/
def bobUser : User :=
  { id := 2, name := "Bob", email := "A@x.com", hash := bcryptHashSync "Abc123" 10,
    role := Role.USER, lastLogin := 5 }

/-- Acceptance predicate following the words of the claim (not the source):
length between 6 and 40 and at least two of the three character classes
anywhere in the candidate.  To be compared with `passwordSchemaOk`. -/
def specClaimAccepts (s : String) : Bool :=
  decide (6 ≤ s.length) && decide (s.length ≤ 40) && hasTwoClasses s.toList

/-- Schema-validity of an optional password field: absent, or accepted by
`passwordSchema`. -/
def optionValidPw : Option String → Bool
  | none => true
  | some s => passwordSchemaOk s

def reqGet : ApiRequest :=
  { method := "GET", authHeader := some "secret", email := "c@x.com",
    password := "Abc123", name := "Cam" }

def reqBadKey : ApiRequest :=
  { method := "POST", authHeader := some "wrong", email := "c@x.com",
    password := "Abc123", name := "Cam" }

/-! ## Helper lemmas -/

theorem mem_of_mem_takeWhileL {α : Type} (p : α → Bool) :
    ∀ (l : List α) (a : α), a ∈ l.takeWhile p → a ∈ l := by
  intro l
  induction l with
  | nil => intro a ha; simp at ha
  | cons x xs ih =>
    intro a ha
    rw [List.takeWhile_cons] at ha
    by_cases hp : p x
    · rw [if_pos hp] at ha
      rcases List.mem_cons.mp ha with h | h
      · subst h; exact List.mem_cons_self a xs
      · exact List.mem_cons_of_mem x (ih a h)
    · rw [if_neg hp] at ha
      simp at ha

theorem length_takeWhile_leL {α : Type} (p : α → Bool) (l : List α) :
    (l.takeWhile p).length ≤ l.length := by
  induction l with
  | nil => simp
  | cons x xs ih =>
    rw [List.takeWhile_cons]
    by_cases hp : p x
    · rw [if_pos hp]
      simpa using ih
    · rw [if_neg hp]
      simp

theorem any_of_takeWhile_any (p q : Char → Bool) (l : List Char)
    (h : (l.takeWhile p).any q = true) : l.any q = true := by
  rw [List.any_eq_true] at h ⊢
  obtain ⟨c, hc, hq⟩ := h
  exact ⟨c, mem_of_mem_takeWhileL p l c hc, hq⟩

theorem hasTwoClasses_of_takeWhile (p : Char → Bool) (l : List Char)
    (h : hasTwoClasses (l.takeWhile p) = true) : hasTwoClasses l = true := by
  simp only [hasTwoClasses, Bool.or_eq_true, Bool.and_eq_true] at h ⊢
  rcases h with (⟨h1, h2⟩ | ⟨h1, h2⟩) | ⟨h1, h2⟩
  · exact Or.inl (Or.inl ⟨any_of_takeWhile_any p isLowerCh l h1,
      any_of_takeWhile_any p isUpperCh l h2⟩)
  · exact Or.inl (Or.inr ⟨any_of_takeWhile_any p isLowerCh l h1,
      any_of_takeWhile_any p isDigitCh l h2⟩)
  · exact Or.inr ⟨any_of_takeWhile_any p isUpperCh l h1,
      any_of_takeWhile_any p isDigitCh l h2⟩

/-! ## Claim C4 -/

/-- Claim C4 (amended): the password classifier rejects every candidate of
length < 6, rejects every candidate satisfying at most one of the three
character classes (lowercase, uppercase, digit), rejects every candidate
longer than 40 characters, and accepts every candidate of length between 6
and 40 satisfying at least two of the three classes provided it contains no
line terminator: the regex dot does not cross `\n`, `\r`, U+2028 or U+2029,
so a candidate with an early line terminator is rejected even when the
original claim would accept it. -/
theorem passwordSchema_classification :
    (∀ s : String, s.length < 6 → passwordSchemaOk s = false) ∧
    (∀ s : String, hasTwoClasses s.toList = false → passwordSchemaOk s = false) ∧
    (∀ s : String, 40 < s.length → passwordSchemaOk s = false) ∧
    (∀ s : String, (∀ c ∈ s.toList, isLineTermCh c = false) →
      6 ≤ s.length → s.length ≤ 40 → hasTwoClasses s.toList = true →
      passwordSchemaOk s = true) := by
  refine ⟨?_, ?_, ?_, ?_⟩
  · intro s h
    have hlist : s.toList.length = s.length := rfl
    have hle := length_takeWhile_leL (fun c => !(isLineTermCh c)) s.toList
    have hd : decide (6 ≤ (dotSpan s).length) = false := by
      simp only [decide_eq_false_iff_not]
      simp only [dotSpan]
      omega
    simp [passwordSchemaOk, mediumPasswordTest, hd]
  · intro s h
    have hb : hasTwoClasses (dotSpan s) = false := by
      cases hc : hasTwoClasses (dotSpan s) with
      | false => rfl
      | true =>
        have hl := hasTwoClasses_of_takeWhile (fun c => !(isLineTermCh c)) s.toList
          (by simpa [dotSpan] using hc)
        rw [h] at hl
        cases hl
    simp [passwordSchemaOk, mediumPasswordTest, hb]
  · intro s h
    have hd : decide (s.length ≤ 40) = false := by
      simp only [decide_eq_false_iff_not]
      omega
    simp [passwordSchemaOk, hd]
  · intro s hnl h6 h40 h2
    have hspan : dotSpan s = s.toList := by
      simp only [dotSpan]
      rw [List.takeWhile_eq_self_iff]
      intro c hc
      simp [hnl c hc]
    have hlist : s.toList.length = s.length := rfl
    simp only [passwordSchemaOk, mediumPasswordTest, hspan, h2, hlist,
      Bool.true_and, Bool.and_eq_true, decide_eq_true_eq]
    refine ⟨⟨by omega, by omega⟩, by omega⟩

/-- Claim C4 witness: the amended classification evaluated at concrete
candidates: a short one, a single-class one, an overlong one and an
accepted one. -/
theorem passwordSchema_classification_witness :
    passwordSchemaOk "abc" = false ∧ passwordSchemaOk "abcdefgh" = false ∧
    passwordSchemaOk "Aa1Aa1Aa1Aa1Aa1Aa1Aa1Aa1Aa1Aa1Aa1Aa1Aa1Aa1" = false ∧
    passwordSchemaOk "Abc123" = true :=
  ⟨passwordSchema_classification.1 "abc" (by decide),
   passwordSchema_classification.2.1 "abcdefgh" (by decide),
   passwordSchema_classification.2.2.1 "Aa1Aa1Aa1Aa1Aa1Aa1Aa1Aa1Aa1Aa1Aa1Aa1Aa1Aa1" (by decide),
   passwordSchema_classification.2.2.2 "Abc123" (by decide) (by decide) (by decide) (by decide)⟩

/-- Claim C4 counterexample: the candidate "ab1\nAAAA" has length 8 and
satisfies all three character classes, so the claim as stated accepts it,
but the classifier rejects it: only three characters precede the line
terminator, so the regex lookahead for six dot-matched characters fails. -/
theorem passwordSchema_newline_counterexample :
    specClaimAccepts "ab1\nAAAA" = true ∧ passwordSchemaOk "ab1\nAAAA" = false := by
  decide

/-! ## Claim C10 -/

/-- Claim C10: for every state and session user, the `me` query performs the
user lookup but resolves to no value (`none`); it never returns the user
record to the caller. -/
theorem me_returns_none : ∀ (st : ServerState) (uid : Nat), me st uid = none :=
  fun _ _ => rfl

/-! ## Claim C1 -/

/-- Claim C1 (a code bug): the observable response of `passwordResetLink`
does depend on account existence.  In the one-user store `stOne` (whose user
has email "a@x.com"), requesting a reset for the existing email resolves to
`undefined` (the success branch ends without a return statement), while a
non-existing email yields the uniform message "Mail sent if email exist!";
the two responses differ, so the uniform-message intent of the code's own
message text is not met. -/
theorem passwordResetLink_response_reveals_account :
    (passwordResetLink stOne "a@x.com").1 = Except.ok none ∧
    (passwordResetLink stOne "b@x.com").1 = Except.ok (some "Mail sent if email exist!") ∧
    (passwordResetLink stOne "a@x.com").1 ≠ (passwordResetLink stOne "b@x.com").1 := by
  refine ⟨rfl, rfl, by decide⟩

/-! ## Claim C2 -/

/-- Claim C2 (amended): when the token decodes to claims without a user id,
`changePasswordFromJwt` fails, but the failure that reaches the caller is
the generic "token is not valid, please try again!": the "This link is not
valid!" error is raised inside the `try` block and converted by the
`catch`. -/
theorem changePasswordFromJwt_noid_generic :
    ∀ (st : ServerState) (tok : JwtToken) (password : String),
      (jwtDecode tok).id = none →
      changePasswordFromJwt st tok password password
        = (Except.error (AppError.thrown "token is not valid, please try again!"), st) := by
  intro st tok password h
  simp [changePasswordFromJwt, changePasswordInner, h, throwErr]

/-- Claim C2 witness: the amended behaviour at a concrete id-less token. -/
theorem changePasswordFromJwt_noid_generic_witness :
    changePasswordFromJwt stOne
        { payload := { id := none, email := "a@x.com" }, secret := "s" }
        "Abc123" "Abc123"
      = (Except.error (AppError.thrown "token is not valid, please try again!"), stOne) :=
  changePasswordFromJwt_noid_generic stOne
    { payload := { id := none, email := "a@x.com" }, secret := "s" } "Abc123" rfl

/-- Claim C2 counterexample: for a concrete token whose claims carry no user
id, the failure reaching the caller is the generic message, not the
specific "This link is not valid!" the claim requires. -/
theorem changePasswordFromJwt_noid_counterexample :
    (changePasswordFromJwt stOne
        { payload := { id := none, email := "b@x.com" }, secret := "s2" }
        "Abc123" "Abc123").1
      = Except.error (AppError.thrown "token is not valid, please try again!") ∧
    (changePasswordFromJwt stOne
        { payload := { id := none, email := "b@x.com" }, secret := "s2" }
        "Abc123" "Abc123").1
      ≠ Except.error (AppError.thrown "This link is not valid!") := by
  refine ⟨rfl, by decide⟩

/-! ## Claim C5 -/

/-- Claim C5: a successful `register` call assigns role `ADMIN` to the
created user exactly when the user count at creation time is zero, and
`USER` otherwise. -/
theorem register_first_admin :
    ∀ (st : ServerState) (email password name : String) (u : User) (st' : ServerState),
      register st email password name = (Except.ok u, st') →
      (u.role = Role.ADMIN ↔ st.users.length = 0) := by
  intro st email password name u st' h
  simp only [register] at h
  split at h
  · simp at h
  · split at h
    · simp at h
    · split at h
      · simp at h
      · split at h
        · simp at h
        · rw [Prod.mk.injEq] at h
          obtain ⟨h1, _⟩ := h
          rw [Except.ok.injEq] at h1
          subst h1
          by_cases hc : st.users.length = 0
          · simp [hc]
          · have : (st.users.length == 0) = false := by
              simpa using hc
            simp [this, hc]

/-- Claim C5 witness: registering into the empty store yields `ADMIN`. -/
theorem register_first_admin_witness :
    annUser.role = Role.ADMIN ↔ stEmpty.users.length = 0 :=
  register_first_admin stEmpty "a@x.com" "Abc123" "Ann" annUser
    (register stEmpty "a@x.com" "Abc123" "Ann").2 (by rfl)

/-! ## Claim C3 -/

/-- Claim C3 (amended): `register` fails with the `NOT_FOUND` "email already
taken" error, leaving the store unchanged, when some stored user's email is
exactly equal (case-sensitively) to the trimmed input email; a case-variant
of a stored email is not detected (the lookup is an exact equality, without
the case normalization the claim assumes). -/
theorem register_email_taken :
    ∀ (st : ServerState) (email password name : String) (u : User),
      st.options.enableRegistration = true →
      u ∈ st.users → u.email = jsTrim email → jsTrim email ≠ "" →
      register st email password name
        = (Except.error (AppError.trpc ErrCode.NOT_FOUND
            ("email \"" ++ jsTrim email ++ "\" already taken")), st) := by
  intro st email password name u hreg hmem hemail hne
  have hfind : ∃ v, st.users.find? (fun w => w.email == jsTrim email) = some v := by
    have hs : (st.users.find? (fun w => w.email == jsTrim email)).isSome := by
      rw [List.find?_isSome]
      exact ⟨u, hmem, by simp [hemail]⟩
    exact Option.isSome_iff_exists.mp hs
  obtain ⟨v, hv⟩ := hfind
  have hbe : (jsTrim email == "") = false := beq_eq_false_iff_ne.mpr hne
  simp only [register, hreg, Bool.not_true, Bool.false_eq_true, if_false, hbe, hv]

/-- Claim C3 witness: registering Ann's exact email again fails with the
email-taken error and the store is unchanged. -/
theorem register_email_taken_witness :
    register stOne "a@x.com" "Abc123" "Bob"
      = (Except.error (AppError.trpc ErrCode.NOT_FOUND
          ("email \"" ++ jsTrim "a@x.com" ++ "\" already taken")), stOne) :=
  register_email_taken stOne "a@x.com" "Abc123" "Bob" annUser rfl
    (by decide) (by decide) (by decide)

/-- Claim C3 counterexample: the store holds a user with email "a@x.com",
and registering with the case-variant "A@x.com" does not fail: it creates a
second user, so an email equal to a stored one only up to letter case is
not rejected. -/
theorem register_case_sensitivity_counterexample :
    (register stOne "A@x.com" "Abc123" "Bob").1 = Except.ok bobUser ∧
    (register stOne "A@x.com" "Abc123" "Bob").2.users = [annUser, bobUser] := by
  refine ⟨rfl, rfl⟩

/-! ## Helper lemmas for the row-update model -/

theorem find?_map_const (i : Nat) (w : User) (hw : w.id = i) :
    ∀ l : List User,
      (l.map (fun v => if v.id == i then w else v)).find? (fun v => v.id == i)
        = (l.find? (fun v => v.id == i)).map (fun _ => w) := by
  intro l
  induction l with
  | nil => rfl
  | cons a as ih =>
    rw [List.map_cons]
    by_cases ha : a.id = i
    · have hbeq : (a.id == i) = true := beq_iff_eq.mpr ha
      have hfa : (w.id == i) = true := beq_iff_eq.mpr hw
      simp [List.find?_cons, hbeq, hfa]
    · have hbeq : (a.id == i) = false := beq_eq_false_iff_ne.mpr ha
      simp only [List.find?_cons, hbeq, Bool.false_eq_true, if_false]
      exact ih

theorem find?_map_rehash (i : Nat) (h : String) :
    ∀ l : List User,
      (l.map (fun v => if v.id == i then { v with hash := h } else v)).find?
          (fun v => v.id == i)
        = (l.find? (fun v => v.id == i)).map (fun v => { v with hash := h }) := by
  intro l
  induction l with
  | nil => rfl
  | cons a as ih =>
    rw [List.map_cons]
    by_cases ha : a.id = i
    · have hbeq : (a.id == i) = true := beq_iff_eq.mpr ha
      simp [List.find?_cons, hbeq]
    · have hbeq : (a.id == i) = false := beq_eq_false_iff_ne.mpr ha
      simp only [List.find?_cons, hbeq, Bool.false_eq_true, if_false]
      exact ih

theorem user_id_of_find (st : ServerState) (uid : Nat) (user : User)
    (h : findUserById st uid = some user) : user.id = uid := by
  have hp := List.find?_some h
  exact eq_of_beq hp

theorem pwOk_truthy (o : Option String) (h : optionValidPw o = true) :
    truthyStr o = o.isSome := by
  cases o with
  | none => rfl
  | some s =>
    simp only [truthyStr, Option.isSome_some]
    simp only [optionValidPw, passwordSchemaOk, Bool.and_eq_true, decide_eq_true_eq] at h
    obtain ⟨⟨h1, _⟩, _⟩ := h
    have hne : s ≠ "" := by
      intro he
      subst he
      simp at h1
    simp [hne]

/-! ## Claim C7 -/

/-- Claim C7: when at least one but not all of the fields password,
newPassword, repeatNewPassword are supplied to `update` (supplied values
being schema-valid, hence non-empty), the mutation fails with the
`BAD_REQUEST` "Please fill all fields!" error and the state (so the stored
user record) is unchanged. -/
theorem update_partial_fields_rejected :
    ∀ (st : ServerState) (uid : Nat) (input : UpdateInput) (user : User),
      findUserById st uid = some user →
      optionValidPw input.password = true →
      optionValidPw input.newPassword = true →
      optionValidPw input.repeatNewPassword = true →
      (input.password ≠ none ∨ input.newPassword ≠ none ∨ input.repeatNewPassword ≠ none) →
      (input.password = none ∨ input.newPassword = none ∨ input.repeatNewPassword = none) →
      update st uid input
        = (Except.error (AppError.trpc ErrCode.BAD_REQUEST "Please fill all fields!"), st) := by
  intro st uid input user hfind hv1 hv2 hv3 hsome hnone
  have e1 := pwOk_truthy input.password hv1
  have e2 := pwOk_truthy input.newPassword hv2
  have e3 := pwOk_truthy input.repeatNewPassword hv3
  have g1 : (truthyStr input.newPassword || truthyStr input.repeatNewPassword
      || truthyStr input.password) = true := by
    rw [e1, e2, e3]
    rcases hsome with h | h | h <;> simp [Option.isSome_iff_ne_none, h]
  have g2 : (!truthyStr input.newPassword || !truthyStr input.repeatNewPassword
      || !truthyStr input.password) = true := by
    rw [e1, e2, e3]
    rcases hnone with h | h | h <;> simp [h]
  simp only [update, hfind, g1, if_true, g2]

/-- Claim C7 witness: supplying only a schema-valid newPassword fails with
the partial-fields error and leaves the one-user store unchanged. -/
theorem update_partial_fields_rejected_witness :
    update stOne 1
        { email := none, password := none, newPassword := some "Xyz789",
          repeatNewPassword := none, name := none }
      = (Except.error (AppError.trpc ErrCode.BAD_REQUEST "Please fill all fields!"), stOne) :=
  update_partial_fields_rejected stOne 1
    { email := none, password := none, newPassword := some "Xyz789",
      repeatNewPassword := none, name := none }
    annUser rfl (by decide) (by decide) (by decide)
    (Or.inr (Or.inl (by decide))) (Or.inl rfl)

/-! ## Claim C8 -/

/-- Claim C8: in every successful `update` call, the stored record of the
acting user keeps its id, role and lastLogin; its email and name are
replaced only when a non-empty value was supplied (falling back to the
existing values); its hash becomes the bcrypt hash of newPassword exactly
when newPassword is truthy, in which case the password change had been
validated (policy test, old-password check and repeat equality all
passed). -/
theorem update_success_frame :
    ∀ (st : ServerState) (uid : Nat) (input : UpdateInput) (st' : ServerState) (user : User),
      findUserById st uid = some user →
      update st uid input = (Except.ok (), st') →
      ∃ u' : User, findUserById st' user.id = some u' ∧
        u'.id = user.id ∧ u'.role = user.role ∧ u'.lastLogin = user.lastLogin ∧
        u'.email = jsOr input.email user.email ∧
        u'.name = jsOr input.name user.name ∧
        u'.hash = (if truthyStr input.newPassword then
            bcryptHashSync (input.newPassword.getD "") 10 else user.hash) ∧
        (truthyStr input.newPassword = true →
          mediumPasswordTest (input.newPassword.getD "") = true ∧
          bcryptCompareSync (input.password.getD "") user.hash = true ∧
          input.newPassword = input.repeatNewPassword) := by
  intro st uid input st' user hfind hupd
  have huid : user.id = uid := user_id_of_find st uid user hfind
  have hfind' : findUserById st user.id = some user := by rw [huid]; exact hfind
  have hafter :
      findUserById (applyProfileUpdate st user input) user.id
        = some { user with
            email := jsOr input.email user.email,
            name := jsOr input.name user.name,
            hash := if truthyStr input.newPassword then
                bcryptHashSync (input.newPassword.getD "") 10
              else user.hash } := by
    have hset := find?_map_const user.id
      ({ user with
          email := jsOr input.email user.email,
          name := jsOr input.name user.name,
          hash := if truthyStr input.newPassword then
              bcryptHashSync (input.newPassword.getD "") 10
            else user.hash }) rfl st.users
    simp only [findUserById, applyProfileUpdate]
    rw [hset]
    simp only [findUserById] at hfind'
    rw [hfind']
    rfl
  simp only [update, hfind] at hupd
  split at hupd
  · rename_i hguard
    split at hupd
    · simp at hupd
    · split at hupd
      · simp at hupd
      · split at hupd
        · simp at hupd
        · split at hupd
          · simp at hupd
          · rename_i hfields hmed hcmp hrep
            rw [Prod.mk.injEq] at hupd
            obtain ⟨_, hst⟩ := hupd
            subst hst
            refine ⟨_, hafter, rfl, rfl, rfl, rfl, rfl, rfl, ?_⟩
            intro _
            refine ⟨by simpa using hmed, by simpa using hcmp, ?_⟩
            simpa [bne] using hrep
  · rename_i hguard
    rw [Prod.mk.injEq] at hupd
    obtain ⟨_, hst⟩ := hupd
    subst hst
    refine ⟨_, hafter, rfl, rfl, rfl, rfl, rfl, rfl, ?_⟩
    intro htru
    rw [htru] at hguard
    simp at hguard

/-- Claim C8 witness: a successful name-only update of the one-user store
keeps id, role, lastLogin, email and hash and replaces the name. -/
theorem update_success_frame_witness :
    ∃ u' : User,
      findUserById (update stOne 1
          { email := none, password := none, newPassword := none,
            repeatNewPassword := none, name := some "Anna" }).2 annUser.id = some u' ∧
      u'.id = annUser.id ∧ u'.role = annUser.role ∧ u'.lastLogin = annUser.lastLogin ∧
      u'.email = jsOr none annUser.email ∧
      u'.name = jsOr (some "Anna") annUser.name ∧
      u'.hash = (if truthyStr none then bcryptHashSync ((none : Option String).getD "") 10
        else annUser.hash) ∧
      (truthyStr none = true →
        mediumPasswordTest ((none : Option String).getD "") = true ∧
        bcryptCompareSync ((none : Option String).getD "") annUser.hash = true ∧
        (none : Option String) = none) :=
  update_success_frame stOne 1
    { email := none, password := none, newPassword := none,
      repeatNewPassword := none, name := some "Anna" }
    (update stOne 1
      { email := none, password := none, newPassword := none,
        repeatNewPassword := none, name := some "Anna" }).2
    annUser rfl rfl

/-! ## Claim C6 -/

theorem changePasswordInner_ok_hash (st : ServerState) (u : User) (pwd : String)
    (r : User) (st1 : ServerState)
    (hfind : findUserById st u.id = some u)
    (h : changePasswordInner st (issueResetToken u) pwd = Except.ok (r, st1)) :
    findUserById st1 u.id = some { u with hash := bcryptHashSync pwd 10 } := by
  simp only [changePasswordInner, issueResetToken, jwtSign, jwtDecode, jwtVerify, hfind,
    beq_self_eq_true, Bool.not_true, Bool.false_eq_true, if_false] at h
  split at h
  · simp at h
  · split at h
    · simp at h
    · rw [Except.ok.injEq, Prod.mk.injEq] at h
      obtain ⟨_, h2⟩ := h
      subst h2
      simp only [findUserById]
      rw [find?_map_rehash u.id (bcryptHashSync pwd 10) st.users]
      simp only [findUserById] at hfind
      rw [hfind]
      rfl

/-- Claim C6: a reset token is issued with the user's current credential
hash as its signing secret; verification against any replacement hash fails
(in particular, after a successful `changePasswordFromJwt` call that stores
a hash different from the old one, the token no longer verifies against the
stored hash), so a password change invalidates previously issued reset
tokens. -/
theorem reset_token_revoked :
    ∀ (st : ServerState) (u : User) (pwd : String) (r : User) (st' : ServerState),
      findUserById st u.id = some u →
      changePasswordFromJwt st (issueResetToken u) pwd pwd = (Except.ok r, st') →
      bcryptHashSync pwd 10 ≠ u.hash →
      (∀ newHash : String, newHash ≠ u.hash →
        jwtVerify (issueResetToken u) newHash = false) ∧
      (∀ u' : User, findUserById st' u.id = some u' →
        jwtVerify (issueResetToken u) u'.hash = false) := by
  intro st u pwd r st' hfind hcall hneq
  have hver : ∀ newHash : String, newHash ≠ u.hash →
      jwtVerify (issueResetToken u) newHash = false := by
    intro nh hnh
    simp only [jwtVerify, issueResetToken, jwtSign]
    exact beq_eq_false_iff_ne.mpr (Ne.symm hnh)
  refine ⟨hver, ?_⟩
  intro u' hu'
  have hinner : ∃ pr : User × ServerState,
      changePasswordInner st (issueResetToken u) pwd = Except.ok pr ∧ pr.2 = st' := by
    simp only [changePasswordFromJwt, bne_self_eq_false, Bool.false_eq_true, if_false] at hcall
    cases hcp : changePasswordInner st (issueResetToken u) pwd with
    | error e =>
      rw [hcp] at hcall
      simp at hcall
    | ok pr =>
      rw [hcp] at hcall
      cases pr with
      | mk a b =>
        rw [Prod.mk.injEq] at hcall
        exact ⟨(a, b), rfl, hcall.2⟩
  obtain ⟨⟨rr, st1⟩, hok, hst⟩ := hinner
  have hst2 : st1 = st' := hst
  have hfinal := changePasswordInner_ok_hash st u pwd rr st1 hfind hok
  rw [hst2] at hfinal
  rw [hfinal] at hu'
  rw [Option.some.injEq] at hu'
  subst hu'
  exact hver (bcryptHashSync pwd 10) hneq

/-- The state of Ann's record after redeeming a reset with password
"Xyz789". -/
def annAfterReset : User :=
  { id := 1, name := "Ann", email := "a@x.com", hash := bcryptHashSync "Xyz789" 10,
    role := Role.ADMIN, lastLogin := 0 }

def stOneAfterReset : ServerState :=
  { users := [annAfterReset], options := baseOptions, nextId := 2, now := 5, outbox := [] }

/-- Claim C6 witness: Ann's reset token fails verification against the hash
stored after she redeemed a password change. -/
theorem reset_token_revoked_witness :
    jwtVerify (issueResetToken annUser) (bcryptHashSync "Xyz789" 10) = false :=
  (reset_token_revoked stOne annUser "Xyz789" annAfterReset stOneAfterReset rfl rfl
      (by decide)).1 (bcryptHashSync "Xyz789" 10) (by decide)

/-! ## Claim C9 -/

/-- Claim C9: the HTTP user-creation handler responds 405 to every non-POST
request, responds 401 to every POST whose x-zt1-auth header is missing or
differs from the fixed string "secret", and invokes `register` exactly when
the header equals "secret". -/
theorem createUserHandler_gatekeeping :
    ∀ (st : ServerState) (req : ApiRequest),
      (req.method ≠ "POST" → (createUserHandler st req).1 = ApiResponse.status 405) ∧
      (req.method = "POST" → req.authHeader ≠ some "secret" →
        (createUserHandler st req).1 = ApiResponse.status 401) ∧
      ((∃ res, (createUserHandler st req).1 = ApiResponse.fromRegister res) ↔
        (req.method = "POST" ∧ req.authHeader = some "secret")) := by
  intro st req
  by_cases hm : req.method = "POST"
  · have hmb : (req.method != "POST") = false := by simp [hm]
    cases hq : req.authHeader with
    | none =>
      refine ⟨fun h => absurd hm h, fun _ _ => ?_, ?_⟩
      · simp [createUserHandler, hmb, hq]
      · constructor
        · rintro ⟨res, hres⟩
          simp [createUserHandler, hmb, hq] at hres
        · rintro ⟨_, hsec⟩
          exact Option.noConfusion hsec
    | some k =>
      by_cases hk : k = "secret"
      · subst hk
        refine ⟨fun h => absurd hm h, fun _ hh => absurd rfl hh, ?_⟩
        constructor
        · intro _
          exact ⟨hm, rfl⟩
        · intro _
          refine ⟨(register st req.email req.password req.name).1, ?_⟩
          have hke : (("secret" : String) == "") = false := by decide
          have hvk : verifyApiKey "secret" = true := by decide
          simp [createUserHandler, hmb, hq, hke, hvk]
      · have h401 : (createUserHandler st req).1 = ApiResponse.status 401 := by
          by_cases hke : k = ""
          · simp [createUserHandler, hmb, hq, hke]
          · simp [createUserHandler, hmb, hq, hke, verifyApiKey, hk]
        refine ⟨fun h => absurd hm h, fun _ _ => h401, ?_⟩
        constructor
        · rintro ⟨res, hres⟩
          rw [h401] at hres
          exact ApiResponse.noConfusion hres
        · rintro ⟨_, hsec⟩
          exact absurd (Option.some.inj hsec) hk
  · have hmb : (req.method != "POST") = true := by simp [bne_iff_ne, hm]
    have h405 : (createUserHandler st req).1 = ApiResponse.status 405 := by
      simp [createUserHandler, hmb]
    refine ⟨fun _ => h405, fun h _ => absurd h hm, ?_⟩
    constructor
    · rintro ⟨res, hres⟩
      rw [h405] at hres
      exact ApiResponse.noConfusion hres
    · rintro ⟨h, _⟩
      exact absurd h hm

/-- Claim C9 witness: a GET request gets 405 and a POST with a wrong key
gets 401. -/
theorem createUserHandler_gatekeeping_witness :
    (createUserHandler stOne reqGet).1 = ApiResponse.status 405 ∧
    (createUserHandler stOne reqBadKey).1 = ApiResponse.status 401 :=
  ⟨(createUserHandler_gatekeeping stOne reqGet).1 (by decide),
   (createUserHandler_gatekeeping stOne reqBadKey).2.1 rfl (by decide)⟩

end Ztnet
